import Mathlib

/-!
Shallow embedding of the `Thruster` system plugin
(`src/src/systems/thruster/Thruster.cc`).

Doubles are modelled as real numbers.  External library helpers that the
plugin calls (`ignition::math` vectors, quaternions, `clamp`, `fixnan`,
the `ignition::math::PID` constructor, and libsdformat `Get`) are embedded
with their library semantics.  The per-step entity-component reads and the
wrench sink, whose implementation lives in this repository but outside the
provided source (`Link.cc`), are modelled from the spec as total per-entity
maps carried in an `Ecm` record.  The `ignition::math::PID::Update` call is
kept abstract: the per-step function is parametrised by an arbitrary update
function, which is exactly how `Thruster.cc` uses it.
-/

noncomputable section

namespace ThrusterSys

/-- Three-component real vector, mirroring `ignition::math::Vector3d`. -/
@[ext] structure V3 where
  x : ℝ
  y : ℝ
  z : ℝ

/-- Dot product, as `Vector3d::Dot`. -/
def V3.dot (a b : V3) : ℝ := a.x * b.x + a.y * b.y + a.z * b.z

/-- Componentwise addition, as `Vector3d::operator+`. -/
def V3.add (a b : V3) : V3 := ⟨a.x + b.x, a.y + b.y, a.z + b.z⟩

/-- Scaling by a scalar on the right, as `Vector3d::operator*(double)`. -/
def V3.smul (a : V3) (k : ℝ) : V3 := ⟨a.x * k, a.y * k, a.z * k⟩

/-- The zero vector (`Vector3d::Zero`, also the value-initialised vector). -/
def V3.zero : V3 := ⟨0, 0, 0⟩

/-- Euclidean length, as `Vector3d::Length` (square root of `SquaredLength`). -/
def V3.length (a : V3) : ℝ := Real.sqrt (a.x * a.x + a.y * a.y + a.z * a.z)

/-- In-place normalisation, as `Vector3d::Normalize`: divide by the length
unless the length is zero, in which case the vector is left unchanged. -/
def V3.normalize (a : V3) : V3 :=
  if a.length = 0 then a else ⟨a.x / a.length, a.y / a.length, a.z / a.length⟩

/-- Quaternion, mirroring `ignition::math::Quaterniond` (components w x y z). -/
@[ext] structure Quat where
  qw : ℝ
  qx : ℝ
  qy : ℝ
  qz : ℝ

/-- Hamilton product, as `Quaterniond::operator*`. -/
def Quat.mul (a b : Quat) : Quat :=
  ⟨a.qw * b.qw - a.qx * b.qx - a.qy * b.qy - a.qz * b.qz,
   a.qw * b.qx + a.qx * b.qw + a.qy * b.qz - a.qz * b.qy,
   a.qw * b.qy - a.qx * b.qz + a.qy * b.qw + a.qz * b.qx,
   a.qw * b.qz + a.qx * b.qy - a.qy * b.qx + a.qz * b.qw⟩

/-- Quaternion inverse, as `Quaterniond::Inverse`: conjugate divided by the
squared norm, or the identity quaternion when the squared norm is zero. -/
def Quat.inverse (a : Quat) : Quat :=
  let s := a.qw * a.qw + a.qx * a.qx + a.qy * a.qy + a.qz * a.qz
  if s = 0 then ⟨1, 0, 0, 0⟩ else ⟨a.qw / s, -a.qx / s, -a.qy / s, -a.qz / s⟩

/-- Vector rotation, as `Quaterniond::RotateVector`: embed the vector as a
pure quaternion, conjugate by the rotation, take the vector part. -/
def Quat.rotateVector (q : Quat) (v : V3) : V3 :=
  let tmp : Quat := ⟨0, v.x, v.y, v.z⟩
  let r := (q.mul tmp).mul q.inverse
  ⟨r.qx, r.qy, r.qz⟩

/-- PID controller record, mirroring the fields of `ignition::math::PID`
that `Init` sets and `Reset` clears. -/
structure PID where
  pGain : ℝ
  iGain : ℝ
  dGain : ℝ
  iMax : ℝ
  iMin : ℝ
  cmdMax : ℝ
  cmdMin : ℝ
  cmdOffset : ℝ
  pErrLast : ℝ
  pErr : ℝ
  iErr : ℝ
  dErr : ℝ
  cmd : ℝ

/-- `ignition::math::PID::Init`: store the eight parameters and reset the
error and command state to zero. -/
def PID.init (p i d iMax iMin cMax cMin offset : ℝ) : PID :=
  ⟨p, i, d, iMax, iMin, cMax, cMin, offset, 0, 0, 0, 0, 0⟩

/-- The default-constructed `ignition::math::PID`
(arguments `0, 0, 0, -1, 0, -1, 0, 0`). -/
def PID.default : PID := PID.init 0 0 0 (-1) 0 (-1) 0 0

/-- The mutable per-thruster data, mirroring `ThrusterPrivateData`
(the transport node and mutex carry no numeric state and are omitted;
the model is sequential, so the lock-protected reads and writes of
`thrust` are plain field accesses). -/
structure ThrusterState where
  thrust : ℝ
  linkEntity : ℕ
  jointAxis : V3
  rpmController : PID
  cmdMax : ℝ
  cmdMin : ℝ
  thrustCoefficient : ℝ
  fluidDensity : ℝ
  propellerDiameter : ℝ

/-- The freshly constructed `ThrusterPrivateData`: member initialisers of
the class, with `linkEntity` value-initialised to the null entity `0` and
`jointAxis` value-initialised to the zero vector. -/
def initialState : ThrusterState :=
  { thrust := 0
    linkEntity := 0
    jointAxis := V3.zero
    rpmController := PID.default
    cmdMax := 1000
    cmdMin := -1000
    thrustCoefficient := 1
    fluidDensity := 1000
    propellerDiameter := 0.02 }

/-- A received `ignition::msgs::Double` payload: either a finite value or
one of the non-finite double values. -/
inductive FDouble where
  | fin (x : ℝ)
  | nan
  | inf
  | ninf

/-- `ignition::math::fixnan`: a NaN or infinite value becomes `0`,
a finite value passes through (the result is always finite). -/
def fixnan : FDouble → ℝ
  | .fin x => x
  | _ => 0

/-- `ignition::math::clamp`: `max(min(v, vmax), vmin)`. -/
def clamp (v vmin vmax : ℝ) : ℝ := max (min v vmax) vmin

/-- `ThrusterPrivateData::OnCmdThrust`: store the clamped, NaN-fixed
command (the mutex only serialises this store with the per-step read). -/
def OnCmdThrust (st : ThrusterState) (msg : FDouble) : ThrusterState :=
  { st with thrust := clamp (fixnan msg) st.cmdMin st.cmdMax }

/-- `ThrusterPrivateData::ThrustToAngularVec`:
`sqrt(abs(thrust / (fluidDensity * thrustCoefficient * propellerDiameter^4)))`
with the sign of the thrust re-attached via `(thrust > 0) ? 1 : -1`. -/
def ThrustToAngularVec (st : ThrusterState) (t : ℝ) : ℝ :=
  Real.sqrt |t / (st.fluidDensity * st.thrustCoefficient *
      st.propellerDiameter ^ 4)| * (if 0 < t then 1 else -1)

/-- The SDF configuration element consumed by `Thruster::Configure`.
Only presence and numeric payload matter to the plugin state; the
`namespace` and `joint_name` values feed topic names and the joint lookup,
which are handled by the external transport and the lookup outcome in
`ConfigEnv`, so the joint name is modelled by its presence bit alone. -/
structure Config where
  hasJointName : Bool
  thrust_coefficient : Option ℝ
  propeller_diameter : Option ℝ
  fluid_density : Option ℝ
  p_gain : Option ℝ
  i_gain : Option ℝ
  d_gain : Option ℝ

/-- libsdformat `Element::Get<double>`: the stored value when the element
is present, the type default `0.0` when it is missing. -/
def sdfGetD (o : Option ℝ) : ℝ := o.getD 0

/-- Outcome of the entity-component lookups `Configure` performs:
whether `JointByName` found the joint, the `JointAxis` component data of
that joint, and the link entity obtained from the joint's child link name. -/
structure ConfigEnv where
  jointFound : Bool
  jointAxisXyz : V3
  childLinkEntity : ℕ

/-- `Thruster::Configure`, as the sequence of early-return checks and
field assignments in the source: missing `joint_name` or
`thrust_coefficient` or `propeller_diameter` returns before entering the
active phase (second component `false`); `fluid_density` is optional;
a failed joint lookup returns after the coefficient fields were already
assigned; on success the joint axis and link entity are stored and the
PID is initialised — with the `p_gain` read guarded by presence but the
`i_gain` and `d_gain` reads guarded by the *negated* presence checks,
exactly as in the source. -/
def Configure (cfg : Config) (env : ConfigEnv) (st0 : ThrusterState) :
    ThrusterState × Bool :=
  if !cfg.hasJointName then (st0, false)
  else if cfg.thrust_coefficient.isNone then (st0, false)
  else
    let st1 := { st0 with thrustCoefficient := sdfGetD cfg.thrust_coefficient }
    if cfg.propeller_diameter.isNone then (st1, false)
    else
      let st2 := { st1 with propellerDiameter := sdfGetD cfg.propeller_diameter }
      let st3 := if cfg.fluid_density.isSome then
          { st2 with fluidDensity := sdfGetD cfg.fluid_density } else st2
      if !env.jointFound then (st3, false)
      else
        let st4 := { st3 with jointAxis := env.jointAxisXyz, linkEntity := env.childLinkEntity }
        let p := if cfg.p_gain.isSome then sdfGetD cfg.p_gain else 0.1
        let i := if !cfg.i_gain.isSome then sdfGetD cfg.i_gain else 0
        let d := if !cfg.d_gain.isSome then sdfGetD cfg.d_gain else 0
        let cMax := ThrustToAngularVec st4 st4.cmdMax
        let cMin := ThrustToAngularVec st4 st4.cmdMin
        ({ st4 with rpmController := PID.init p i d 1 (-1) cMax cMin 0 }, true)

/-- The entity-component state the per-step update touches.
Modelled from the spec: the pose/velocity queries and the wrench sink
(`worldPose`, `Link::WorldAngularVelocity`, `Link::AddWorldWrench` live in
this repository outside the provided source), per §9 of the spec, are
"a pose/velocity query for a body handle" and "a wrench-application sink
for a body handle", here total maps from entity to world rotation, world
angular velocity and accumulated external wrench (force, torque). -/
@[ext] structure Ecm where
  rot : ℕ → Quat
  angVel : ℕ → V3
  wrench : ℕ → V3 × V3

/-- Modelled from the spec: `Link::AddWorldWrench` (not under `src/`)
accumulates the given force and torque into the body's wrench for the
current step — "additive (accumulated with other wrenches applied the
same step, not overwritten)". -/
def Ecm.addWorldWrench (ecm : Ecm) (e : ℕ) (force torque : V3) : Ecm :=
  { ecm with wrench := fun e2 =>
      if e2 = e then
        ((ecm.wrench e2).1.add force, (ecm.wrench e2).2.add torque)
      else ecm.wrench e2 }

/-- The per-step `UpdateInfo` fields the plugin reads. -/
structure UpdateInfo where
  paused : Bool
  dt : ℝ

/-- The world-frame propeller axis computed each step: the joint axis is
normalised in place and rotated by the link's world orientation. -/
def unitVectorOf (st : ThrusterState) (ecm : Ecm) : V3 :=
  (ecm.rot st.linkEntity).rotateVector st.jointAxis.normalize

/-- The angular-velocity error computed each step: measured world angular
velocity projected on the axis, minus the angular velocity equivalent to
the stored thrust command. -/
def angularErrorOf (st : ThrusterState) (ecm : Ecm) : ℝ :=
  (ecm.angVel st.linkEntity).dot (unitVectorOf st ecm) -
    ThrustToAngularVec st st.thrust

/-- `Thruster::PreUpdate`, parametrised by the `ignition::math::PID::Update`
function (state, error, dt ↦ new state, returned command), which the plugin
treats as a black box.  If paused, return immediately.  Otherwise normalise
the joint axis in place (`Vector3d::Normalize` mutates the member), rotate
it to the world frame, read the stored thrust, convert it, project the
measured angular velocity, and outside the `0.1` dead-band run the PID;
finally add the world wrench `(unitVector * thrust, unitVector * torque)`
on the link. -/
def PreUpdate (pidUpdate : PID → ℝ → ℝ → PID × ℝ)
    (st : ThrusterState) (info : UpdateInfo) (ecm : Ecm) :
    ThrusterState × Ecm :=
  if info.paused then (st, ecm)
  else
    let axisN := st.jointAxis.normalize
    let unitVector := (ecm.rot st.linkEntity).rotateVector axisN
    let desiredThrust := st.thrust
    let angularError :=
      (ecm.angVel st.linkEntity).dot unitVector -
        ThrustToAngularVec st desiredThrust
    let upd := if 0.1 < |angularError| then
        pidUpdate st.rpmController angularError info.dt
      else (st.rpmController, 0)
    let st2 := { st with jointAxis := axisN, rpmController := upd.1 }
    (st2, ecm.addWorldWrench st.linkEntity (unitVector.smul st.thrust)
      (unitVector.smul upd.2))

/-! ## Shared helper lemmas -/

theorem V3.add_zero_right (a : V3) : a.add V3.zero = a := by
  ext <;> simp [V3.add, V3.zero]

theorem V3.smul_zero_left (k : ℝ) : V3.zero.smul k = V3.zero := by
  ext <;> simp [V3.smul, V3.zero]

theorem V3.dot_zero_right (a : V3) : a.dot V3.zero = 0 := by
  simp [V3.dot, V3.zero]

theorem V3.normalize_zero : V3.zero.normalize = V3.zero := by
  simp [V3.normalize, V3.length, V3.zero]

theorem Quat.mul_zero_right (q : Quat) : q.mul ⟨0, 0, 0, 0⟩ = ⟨0, 0, 0, 0⟩ := by
  simp [Quat.mul]

theorem Quat.zero_mul_left (q : Quat) : Quat.mul ⟨0, 0, 0, 0⟩ q = ⟨0, 0, 0, 0⟩ := by
  simp [Quat.mul]

theorem Quat.rotateVector_zero (q : Quat) : q.rotateVector V3.zero = V3.zero := by
  simp [Quat.rotateVector, V3.zero, Quat.mul_zero_right, Quat.zero_mul_left]

theorem thrustToAngularVec_zero (st : ThrusterState) :
    ThrustToAngularVec st 0 = 0 := by
  simp [ThrustToAngularVec]

theorem le_clamp (v vmin vmax : ℝ) : vmin ≤ clamp v vmin vmax :=
  le_max_right _ _

theorem clamp_le (v vmin vmax : ℝ) (h : vmin ≤ vmax) : clamp v vmin vmax ≤ vmax :=
  max_le (min_le_right v vmax) h

theorem addWorldWrench_zero (ecm : Ecm) (e : ℕ) :
    ecm.addWorldWrench e V3.zero V3.zero = ecm := by
  refine Ecm.ext rfl rfl ?_
  funext e2
  simp [Ecm.addWorldWrench, V3.add_zero_right]

/-- A trivial stand-in PID update function, used to instantiate witnesses. -/
def pidZero : PID → ℝ → ℝ → PID × ℝ := fun p _ _ => (p, 0)

/-- A concrete entity-component state used to instantiate witnesses:
identity orientation, zero angular velocity and empty wrench accumulators
for every body. -/
def ecm0 : Ecm :=
  ⟨fun _ => ⟨1, 0, 0, 0⟩, fun _ => V3.zero, fun _ => (V3.zero, V3.zero)⟩

theorem V3.smul_zero_right (a : V3) : a.smul 0 = V3.zero := by
  ext <;> simp [V3.smul, V3.zero]

/-- The non-paused step, written out: the joint axis is normalised in
place, the PID runs outside the dead-band only, and the wrench
`(unitVector * thrust, unitVector * torque)` is accumulated on the link. -/
theorem preUpdate_run (f : PID → ℝ → ℝ → PID × ℝ) (st : ThrusterState)
    (info : UpdateInfo) (ecm : Ecm) (hp : info.paused = false) :
    PreUpdate f st info ecm =
      ({ st with jointAxis := st.jointAxis.normalize,
                 rpmController := (if 0.1 < |angularErrorOf st ecm| then
                     f st.rpmController (angularErrorOf st ecm) info.dt
                   else (st.rpmController, 0)).1 },
       ecm.addWorldWrench st.linkEntity
         ((unitVectorOf st ecm).smul st.thrust)
         ((unitVectorOf st ecm).smul (if 0.1 < |angularErrorOf st ecm| then
             f st.rpmController (angularErrorOf st ecm) info.dt
           else (st.rpmController, 0)).2)) := by
  simp only [PreUpdate, hp, Bool.false_eq_true, if_false, angularErrorOf,
    unitVectorOf]

/-! ## Claims -/

/-- Claim C8: when the per-step update is invoked with the pause flag true,
it is a no-op for every state and every stored command: the thruster state
is returned unchanged (stored command, PID state and joint axis included)
and the entity-component state — in particular every body's wrench
accumulator — is returned unchanged. -/
theorem c8_paused_noop (f : PID → ℝ → ℝ → PID × ℝ) (st : ThrusterState)
    (info : UpdateInfo) (ecm : Ecm) (hp : info.paused = true) :
    PreUpdate f st info ecm = (st, ecm) := by
  simp [PreUpdate, hp]

theorem c8_paused_noop_witness :
    PreUpdate pidZero initialState ⟨true, 1⟩ ecm0 = (initialState, ecm0) :=
  c8_paused_noop pidZero initialState ⟨true, 1⟩ ecm0 rfl

/-- Claim C5: for every input to the command intake (finite, NaN or
infinite), when the bounds are ordered the stored command satisfies
cmdMin ≤ stored ≤ cmdMax, and a NaN input is replaced by zero before
clamping, so it stores clamp(0, cmdMin, cmdMax). -/
theorem c5_command_intake (st : ThrusterState) (h : st.cmdMin ≤ st.cmdMax)
    (msg : FDouble) :
    st.cmdMin ≤ (OnCmdThrust st msg).thrust ∧
    (OnCmdThrust st msg).thrust ≤ st.cmdMax ∧
    (msg = FDouble.nan →
      (OnCmdThrust st msg).thrust = clamp 0 st.cmdMin st.cmdMax) := by
  refine ⟨le_clamp _ _ _, clamp_le _ _ _ h, ?_⟩
  rintro rfl
  rfl

theorem c5_command_intake_witness :
    initialState.cmdMin ≤ initialState.cmdMax ∧
    (OnCmdThrust initialState FDouble.nan).thrust =
      clamp 0 initialState.cmdMin initialState.cmdMax := by
  refine ⟨by norm_num [initialState], ?_⟩
  exact (c5_command_intake initialState (by norm_num [initialState])
    FDouble.nan).2.2 rfl

/-- Claim C6: under strictly positive fluid density, thrust coefficient and
propeller diameter, the thrust-to-angular-velocity conversion has the same
sign as its argument, is zero exactly when the argument is zero, and is
odd. -/
theorem c6_sign_odd (st : ThrusterState) (hf : 0 < st.fluidDensity)
    (hc : 0 < st.thrustCoefficient) (hd : 0 < st.propellerDiameter) (t : ℝ) :
    (0 < t → 0 < ThrustToAngularVec st t) ∧
    (t < 0 → ThrustToAngularVec st t < 0) ∧
    (ThrustToAngularVec st t = 0 ↔ t = 0) ∧
    ThrustToAngularVec st (-t) = -ThrustToAngularVec st t := by
  have hD : 0 < st.fluidDensity * st.thrustCoefficient *
      st.propellerDiameter ^ 4 := by positivity
  have hsq : ∀ s : ℝ, s ≠ 0 → 0 < Real.sqrt |s / (st.fluidDensity *
      st.thrustCoefficient * st.propellerDiameter ^ 4)| := by
    intro s hs
    rw [abs_div, abs_of_pos hD]
    exact Real.sqrt_pos.mpr (div_pos (abs_pos.mpr hs) hD)
  have hpos1 : ∀ s : ℝ, 0 < s → 0 < ThrustToAngularVec st s := by
    intro s hs
    simp only [ThrustToAngularVec, if_pos hs, mul_one]
    exact hsq s (ne_of_gt hs)
  have hneg1 : ∀ s : ℝ, s < 0 → ThrustToAngularVec st s < 0 := by
    intro s hs
    simp only [ThrustToAngularVec]
    rw [if_neg (not_lt.mpr hs.le)]
    exact mul_neg_of_pos_of_neg (hsq s (ne_of_lt hs)) (by norm_num)
  refine ⟨hpos1 t, hneg1 t, ⟨?_, ?_⟩, ?_⟩
  · intro h0
    rcases lt_trichotomy t 0 with h | h | h
    · exact absurd h0 (ne_of_lt (hneg1 t h))
    · exact h
    · exact absurd h0 (ne_of_gt (hpos1 t h))
  · rintro rfl
    exact thrustToAngularVec_zero st
  · rcases lt_trichotomy t 0 with h | h | h
    · have h1 : (0:ℝ) < -t := by linarith
      simp only [ThrustToAngularVec, if_pos h1, if_neg (not_lt.mpr h.le),
        mul_one]
      rw [neg_div, abs_neg]
      ring
    · subst h
      rw [neg_zero, thrustToAngularVec_zero, neg_zero]
    · have h1 : ¬ (0:ℝ) < -t := by linarith
      simp only [ThrustToAngularVec, if_pos h, if_neg h1, mul_one]
      rw [neg_div, abs_neg]
      ring

theorem c6_sign_odd_witness :
    0 < initialState.fluidDensity ∧ 0 < initialState.thrustCoefficient ∧
    0 < initialState.propellerDiameter ∧
    ThrustToAngularVec initialState (-5) = -ThrustToAngularVec initialState 5 := by
  refine ⟨by norm_num [initialState], by norm_num [initialState],
    by norm_num [initialState], ?_⟩
  exact (c6_sign_odd initialState (by norm_num [initialState])
    (by norm_num [initialState]) (by norm_num [initialState]) 5).2.2.2

/-- Claim C1: if configuration fails because thrust_coefficient is missing,
the component stays in its initial (Unconfigured) state — Configure
returns before mutating anything and before subscribing — and every
subsequent per-step update call on that state is a no-op: it returns the
thruster state unchanged and leaves every body's wrench accumulator (and
the rest of the entity-component state) unchanged. -/
theorem c1_unconfigured_noop (cfg : Config)
    (hmiss : cfg.thrust_coefficient = none) (env : ConfigEnv)
    (f : PID → ℝ → ℝ → PID × ℝ) (info : UpdateInfo) (ecm : Ecm) :
    Configure cfg env initialState = (initialState, false) ∧
    PreUpdate f initialState info ecm = (initialState, ecm) := by
  constructor
  · unfold Configure
    rw [hmiss]
    simp
  · cases hpause : info.paused
    · simp only [PreUpdate, hpause, Bool.false_eq_true, if_false]
      have hax : initialState.jointAxis.normalize = V3.zero := by
        rw [show initialState.jointAxis = V3.zero from rfl, V3.normalize_zero]
      have hthr : ThrustToAngularVec initialState initialState.thrust = 0 := by
        rw [show initialState.thrust = (0:ℝ) from rfl,
          thrustToAngularVec_zero]
      rw [hax, Quat.rotateVector_zero, hthr, V3.dot_zero_right,
        V3.smul_zero_left]
      norm_num
      refine ⟨rfl, ?_⟩
      rw [V3.smul_zero_left]
      exact addWorldWrench_zero ecm initialState.linkEntity
    · simp [PreUpdate, hpause]

theorem c1_unconfigured_noop_witness :
    Configure ⟨true, none, some 0.02, none, none, none, none⟩
        ⟨true, V3.zero, 3⟩ initialState = (initialState, false) ∧
    PreUpdate pidZero initialState ⟨false, 1⟩ ecm0 = (initialState, ecm0) :=
  c1_unconfigured_noop ⟨true, none, some 0.02, none, none, none, none⟩ rfl
    ⟨true, V3.zero, 3⟩ pidZero ⟨false, 1⟩ ecm0

/-- Claim C7: in a non-paused step, when the angular error is inside the
0.1 dead-band (boundary included, so at exactly 0.1 the torque is 0) the
PID state is untouched — Update is not invoked, the integral accumulator
is unchanged — and the applied corrective torque is zero, so the torque
part of the driven body's wrench accumulator is unchanged; when the error
exceeds 0.1 the new PID state and the applied torque are exactly the
state and value returned by the PID update function at (error, dt). -/
theorem c7_deadband (f : PID → ℝ → ℝ → PID × ℝ) (st : ThrusterState)
    (info : UpdateInfo) (ecm : Ecm) (hp : info.paused = false) :
    (|angularErrorOf st ecm| ≤ 0.1 →
      (PreUpdate f st info ecm).1.rpmController = st.rpmController ∧
      ((PreUpdate f st info ecm).2.wrench st.linkEntity).2 =
        (ecm.wrench st.linkEntity).2) ∧
    (0.1 < |angularErrorOf st ecm| →
      (PreUpdate f st info ecm).1.rpmController =
        (f st.rpmController (angularErrorOf st ecm) info.dt).1 ∧
      ((PreUpdate f st info ecm).2.wrench st.linkEntity).2 =
        ((ecm.wrench st.linkEntity).2).add ((unitVectorOf st ecm).smul
          (f st.rpmController (angularErrorOf st ecm) info.dt).2)) := by
  rw [preUpdate_run f st info ecm hp]
  by_cases hcase : 0.1 < |angularErrorOf st ecm|
  · refine ⟨fun hle => absurd hcase (not_lt.mpr hle), fun _ => ?_⟩
    rw [if_pos hcase]
    exact ⟨rfl, by simp [Ecm.addWorldWrench]⟩
  · refine ⟨fun _ => ?_, fun hgt => absurd hgt hcase⟩
    rw [if_neg hcase]
    exact ⟨rfl, by simp [Ecm.addWorldWrench, V3.smul_zero_right,
      V3.add_zero_right]⟩

theorem c7_deadband_witness :
    |angularErrorOf initialState ecm0| ≤ 0.1 ∧
    (PreUpdate pidZero initialState ⟨false, 1⟩ ecm0).1.rpmController =
      initialState.rpmController := by
  have herr : angularErrorOf initialState ecm0 = 0 := by
    simp [angularErrorOf, unitVectorOf, ecm0, initialState,
      V3.normalize_zero, Quat.rotateVector_zero, V3.dot_zero_right,
      thrustToAngularVec_zero]
  refine ⟨by rw [herr]; norm_num, ?_⟩
  exact ((c7_deadband pidZero initialState ⟨false, 1⟩ ecm0 rfl).1
    (by rw [herr]; norm_num)).1

/-- Claim C9: on every non-paused step, the wrench accumulated on the
driven body is exactly (unitVector * storedThrust, unitVector * torque),
with unitVector the normalised propeller axis rotated into the world
frame and torque the dead-band/PID result; the accumulation is additive
on top of the body's existing wrench, no other body's wrench changes, and
the pose and angular-velocity maps — the rest of the externally visible
entity-component state — are unchanged. -/
theorem c9_wrench_emission (f : PID → ℝ → ℝ → PID × ℝ) (st : ThrusterState)
    (info : UpdateInfo) (ecm : Ecm) (hp : info.paused = false) :
    ((PreUpdate f st info ecm).2.wrench st.linkEntity =
      (((ecm.wrench st.linkEntity).1).add
         ((unitVectorOf st ecm).smul st.thrust),
       ((ecm.wrench st.linkEntity).2).add ((unitVectorOf st ecm).smul
         (if 0.1 < |angularErrorOf st ecm| then
            f st.rpmController (angularErrorOf st ecm) info.dt
          else (st.rpmController, 0)).2))) ∧
    (∀ e, e ≠ st.linkEntity →
      (PreUpdate f st info ecm).2.wrench e = ecm.wrench e) ∧
    (PreUpdate f st info ecm).2.rot = ecm.rot ∧
    (PreUpdate f st info ecm).2.angVel = ecm.angVel := by
  rw [preUpdate_run f st info ecm hp]
  refine ⟨by simp [Ecm.addWorldWrench], ?_, rfl, rfl⟩
  intro e he
  simp [Ecm.addWorldWrench, he]

theorem c9_wrench_emission_witness :
    (PreUpdate pidZero initialState ⟨false, 1⟩ ecm0).2.rot = ecm0.rot ∧
    (PreUpdate pidZero initialState ⟨false, 1⟩ ecm0).2.angVel = ecm0.angVel := by
  have h := c9_wrench_emission pidZero initialState ⟨false, 1⟩ ecm0 rfl
  exact ⟨h.2.2.1, h.2.2.2⟩

/-- A lookup environment in which the joint is found. -/
def envOk : ConfigEnv := ⟨true, ⟨1, 0, 0⟩, 5⟩

/-- Configuration with the required tags present and no optional tag. -/
def cfgNoGains : Config := ⟨true, some 1, some 0.02, none, none, none, none⟩

/-- Configuration with all three gain tags present. -/
def cfgGains : Config := ⟨true, some 1, some 0.02, none, some 2, some 5, some 7⟩

/-- Configuration with a present but negative thrust_coefficient. -/
def cfgNegCoeff : Config :=
  ⟨true, some (-1), some 0.02, some 1000, none, none, none⟩

/-- Claim C4 (counterexample): at the scenario-A parameters
(thrustCoefficient 1, propellerDiameter 0.02, fluidDensity 1000 — the
defaults of `initialState`) the conversion of 100 N is below 800 rad/s,
so it is not approximately 1118.03 rad/s; the claim's own closed form
sqrt(100/(1000·1·0.02^4)) is the same number and is also below 800. -/
theorem c4_counterexample :
    ThrustToAngularVec initialState 100 < 800 ∧
    Real.sqrt (100 / (1000 * 1 * (0.02:ℝ) ^ 4)) < 800 := by
  have h6 : (100:ℝ) / (1000 * 1 * (0.02:ℝ) ^ 4) = 625000 := by norm_num
  have hs : Real.sqrt 625000 < 800 := by
    rw [Real.sqrt_lt' (by norm_num)]
    norm_num
  have he : ThrustToAngularVec initialState 100 = Real.sqrt 625000 := by
    simp only [ThrustToAngularVec, initialState]
    rw [show |(100:ℝ) / (1000 * 1 * (0.02:ℝ) ^ 4)| = 625000 by
      rw [abs_of_pos (by norm_num)]; exact h6]
    norm_num
  exact ⟨he ▸ hs, h6 ▸ hs⟩

/-- Claim C4 (amended): with thrustCoefficient = 1, propellerDiameter =
0.02 and fluidDensity = 1000, ThrustToAngularVec(100) equals
sqrt(100 / (1000·1·0.02^4)) = sqrt(625000) ≈ 790.57 rad/s (the value is
within 0.001 of 790.57). -/
theorem c4_scenario_a :
    ThrustToAngularVec initialState 100 =
      Real.sqrt (100 / (1000 * 1 * (0.02:ℝ) ^ 4)) ∧
    |ThrustToAngularVec initialState 100 - 790.57| < 0.001 := by
  have h6 : (100:ℝ) / (1000 * 1 * (0.02:ℝ) ^ 4) = 625000 := by norm_num
  have he : ThrustToAngularVec initialState 100 = Real.sqrt 625000 := by
    simp only [ThrustToAngularVec, initialState]
    rw [show |(100:ℝ) / (1000 * 1 * (0.02:ℝ) ^ 4)| = 625000 by
      rw [abs_of_pos (by norm_num)]; exact h6]
    norm_num
  have h1 : (790.569:ℝ) < Real.sqrt 625000 := by
    rw [Real.lt_sqrt (by norm_num)]
    norm_num
  have h2 : Real.sqrt 625000 < 790.571 := by
    rw [Real.sqrt_lt' (by norm_num)]
    norm_num
  refine ⟨by rw [he, h6], ?_⟩
  rw [he, abs_sub_lt_iff]
  constructor <;> linarith

/-- Claim C2 (code evaluation at the failing input): with p_gain = 2,
i_gain = 5, d_gain = 7 all present, configuration succeeds but the PID is
initialised with pGain = 2, iGain = 0, dGain = 0 — the present i_gain and
d_gain values are ignored, because the source reads them behind negated
presence checks; with all three gain tags absent the defaults p = 0.1,
i = 0, d = 0 are used. -/
theorem c2_gain_inversion :
    (Configure cfgGains envOk initialState).2 = true ∧
    (Configure cfgGains envOk initialState).1.rpmController.pGain = 2 ∧
    (Configure cfgGains envOk initialState).1.rpmController.iGain = 0 ∧
    (Configure cfgGains envOk initialState).1.rpmController.dGain = 0 ∧
    (Configure cfgNoGains envOk initialState).1.rpmController.pGain = 0.1 ∧
    (Configure cfgNoGains envOk initialState).1.rpmController.iGain = 0 ∧
    (Configure cfgNoGains envOk initialState).1.rpmController.dGain = 0 :=
  ⟨rfl, rfl, rfl, rfl, rfl, rfl, rfl⟩

/-- Claim C3 (code evaluation at the failing input): with a present but
negative thrust_coefficient = -1 (all required tags present, joint found),
configuration succeeds — the source performs no positivity validation on
fluid density, thrust coefficient or propeller diameter — and the
component enters the Active phase carrying thrustCoefficient = -1. -/
theorem c3_no_positivity_validation :
    (Configure cfgNegCoeff envOk initialState).2 = true ∧
    (Configure cfgNegCoeff envOk initialState).1.thrustCoefficient = -1 ∧
    (Configure cfgNegCoeff envOk initialState).1.fluidDensity = 1000 ∧
    (Configure cfgNegCoeff envOk initialState).1.propellerDiameter = 0.02 :=
  ⟨rfl, rfl, rfl, rfl⟩

/-- Configure never assigns the command bounds or the stored thrust. -/
theorem configure_preserves (cfg : Config) (env : ConfigEnv)
    (st : ThrusterState) :
    ((Configure cfg env st).1).cmdMin = st.cmdMin ∧
    ((Configure cfg env st).1).cmdMax = st.cmdMax ∧
    ((Configure cfg env st).1).thrust = st.thrust := by
  unfold Configure
  split_ifs <;> exact ⟨rfl, rfl, rfl⟩

/-- When Configure reaches the active phase, the PID output bounds it
installed are the conversions of the command bounds, under the configured
coefficient fields of the resulting state. -/
theorem configure_active_rpm (cfg : Config) (env : ConfigEnv)
    (st : ThrusterState) (h : (Configure cfg env st).2 = true) :
    ((Configure cfg env st).1).rpmController.cmdMax =
      ThrustToAngularVec (Configure cfg env st).1 st.cmdMax ∧
    ((Configure cfg env st).1).rpmController.cmdMin =
      ThrustToAngularVec (Configure cfg env st).1 st.cmdMin := by
  unfold Configure at h ⊢
  split_ifs at h ⊢ <;> exact ⟨rfl, rfl⟩

/-- Every fold of command messages keeps the bounds fields, keeps the
stored command inside [-1000, 1000] and keeps the PID output bounds at the
conversions of ±1000, once they hold. -/
theorem fold_bounds_invariant (msgs : List FDouble) (st : ThrusterState)
    (h1 : st.cmdMin = -1000) (h2 : st.cmdMax = 1000)
    (h3 : -1000 ≤ st.thrust) (h4 : st.thrust ≤ 1000)
    (h5 : st.rpmController.cmdMax = ThrustToAngularVec st 1000)
    (h6 : st.rpmController.cmdMin = ThrustToAngularVec st (-1000)) :
    (msgs.foldl OnCmdThrust st).cmdMin = -1000 ∧
    (msgs.foldl OnCmdThrust st).cmdMax = 1000 ∧
    -1000 ≤ (msgs.foldl OnCmdThrust st).thrust ∧
    (msgs.foldl OnCmdThrust st).thrust ≤ 1000 ∧
    (msgs.foldl OnCmdThrust st).rpmController.cmdMax =
      ThrustToAngularVec (msgs.foldl OnCmdThrust st) 1000 ∧
    (msgs.foldl OnCmdThrust st).rpmController.cmdMin =
      ThrustToAngularVec (msgs.foldl OnCmdThrust st) (-1000) := by
  induction msgs generalizing st with
  | nil => exact ⟨h1, h2, h3, h4, h5, h6⟩
  | cons m ms ih =>
    simp only [List.foldl_cons]
    apply ih
    · exact h1
    · exact h2
    · show -1000 ≤ clamp (fixnan m) st.cmdMin st.cmdMax
      rw [h1]
      exact le_clamp _ _ _
    · show clamp (fixnan m) st.cmdMin st.cmdMax ≤ 1000
      rw [h1, h2]
      exact clamp_le _ _ _ (by norm_num)
    · exact h5
    · exact h6

/-- Claim C10: the command bounds are the fixed constants -1000 N and
+1000 N — no configuration option assigns them — so after any successful
configuration and any sequence of received commands, the stored command
lies in [-1000, 1000] and the PID output bounds installed at configuration
remain the conversions ThrustToAngularVec(±1000). -/
theorem c10_fixed_bounds (cfg : Config) (env : ConfigEnv)
    (hA : (Configure cfg env initialState).2 = true) (msgs : List FDouble) :
    (msgs.foldl OnCmdThrust (Configure cfg env initialState).1).cmdMin = -1000 ∧
    (msgs.foldl OnCmdThrust (Configure cfg env initialState).1).cmdMax = 1000 ∧
    -1000 ≤ (msgs.foldl OnCmdThrust (Configure cfg env initialState).1).thrust ∧
    (msgs.foldl OnCmdThrust (Configure cfg env initialState).1).thrust ≤ 1000 ∧
    (msgs.foldl OnCmdThrust (Configure cfg env initialState).1).rpmController.cmdMax =
      ThrustToAngularVec (msgs.foldl OnCmdThrust (Configure cfg env initialState).1) 1000 ∧
    (msgs.foldl OnCmdThrust (Configure cfg env initialState).1).rpmController.cmdMin =
      ThrustToAngularVec (msgs.foldl OnCmdThrust (Configure cfg env initialState).1) (-1000) := by
  have hp := configure_preserves cfg env initialState
  have hr := configure_active_rpm cfg env initialState hA
  apply fold_bounds_invariant
  · rw [hp.1]
    rfl
  · rw [hp.2.1]
    rfl
  · rw [hp.2.2]
    norm_num [initialState]
  · rw [hp.2.2]
    norm_num [initialState]
  · exact hr.1
  · exact hr.2

theorem c10_fixed_bounds_witness :
    (Configure cfgNoGains envOk initialState).2 = true ∧
    ([FDouble.fin 2000].foldl OnCmdThrust
      (Configure cfgNoGains envOk initialState).1).thrust ≤ 1000 := by
  refine ⟨rfl, ?_⟩
  exact (c10_fixed_bounds cfgNoGains envOk rfl [FDouble.fin 2000]).2.2.2.1

end ThrusterSys
